import Mathlib

/-
  Verification of the door-monitor state-transition and daily-aggregation core
  (src/BackEnd/door_monitor.py).

  Shallow embedding:
  - The two local JSON files (current_status.json, day_data.json) and the remote
    Firestore "door_data" collection are fields of an explicit system state `Sys`.
  - `day_data.json` is a python dict keyed by a date; we model dates and epoch
    timestamps as `Nat` (the code only compares dates for equality and looks
    them up as keys) and the dict as an insertion-ordered association list,
    so that `next(iter(day_data))` is `List.head?`.
  - Remote calls can fail (network exceptions); the failure of each kind of
    call is an explicit boolean in the environment `Env`, and the try/except
    blocks of the python code become branches on those booleans.
  - Each operation also returns a trace of `Event`s recording, in order, the
    local file writes and remote calls it performed.
-/

namespace DoorMonitor

/-- One open/close episode, as stored in `day_data.json` under "openings". -/
structure Entry where
  opened : Nat
  closed : Nat
  deriving Repr, DecidableEq

/-- Contents of `current_status.json`. -/
structure StatusData where
  isOpen : Nat
  lastOpened : Nat
  lastClosed : Nat
  deriving Repr, DecidableEq

/-- The value stored under the single date key of `day_data.json`. -/
structure DayRecord where
  numOfOpenings : Nat
  openings : List Entry
  deriving Repr, DecidableEq

/-- A python dict keyed by dates, in insertion order (used both for
`day_data.json` and for the remote per-day documents). -/
abbrev DayData := List (Nat × DayRecord)

/-- Dict lookup, `d[k]` / `k in d`. -/
def dictGet : DayData → Nat → Option DayRecord
  | [], _ => none
  | (k, v) :: rest, key => if k = key then some v else dictGet rest key

/-- Dict update `d[k] = v`: replaces the value if the key exists, appends otherwise. -/
def dictSet : DayData → Nat → DayRecord → DayData
  | [], key, v => [(key, v)]
  | (k, w) :: rest, key, v =>
      if k = key then (k, v) :: rest else (k, w) :: dictSet rest key v

/-- Observable effects of one operation, in program order. -/
inductive Event where
  | localStatusWrite (sd : StatusData)
  | localDayWrite (d : DayData)
  | remoteStatusUpsert (sd : StatusData)
  | remoteDayUpsert (dateId : Nat) (num : Nat) (opens : List Entry)
  | remoteStatusFail
  | remoteDayFail
  deriving Repr, DecidableEq

/-- Whether an event is a remote aggregate (per-day) upsert. -/
def Event.isDayUpsert : Event → Bool
  | Event.remoteDayUpsert _ _ _ => true
  | _ => false

/-- Whether an event is a remote current-status upsert. -/
def Event.isStatusUpsert : Event → Bool
  | Event.remoteStatusUpsert _ => true
  | _ => false

/-- Whether an event is a local write of `day_data.json`. -/
def Event.isLocalDayWrite : Event → Bool
  | Event.localDayWrite _ => true
  | _ => false

/-- The whole system state: the two local JSON files and the remote store. -/
structure Sys where
  statusFile : StatusData
  dayFile : DayData
  remoteStatus : Option StatusData
  remoteDays : DayData
  deriving Repr, DecidableEq

/-- The ambient environment of one operation: the clock readings
(`get_timestamp`, `get_today_date`) and whether each remote call raises. -/
structure Env where
  now : Nat
  today : Nat
  statusUpsertFails : Bool
  dayUpsertFails : Bool
  existsCheckFails : Bool
  deriving Repr, DecidableEq

/-- Default contents written to `current_status.json` at first run. -/
def initStatusFile : StatusData := ⟨0, 0, 0⟩

/-- Default contents written to `day_data.json` at first run. -/
def initDayFile (today : Nat) : DayData := [(today, ⟨0, []⟩)]

/-- `get_day_data`: read `day_data.json`. -/
def get_day_data (s : Sys) : DayData := s.dayFile

/-- Write `day_data.json` (the `json.dump(..., file)` full-document overwrite). -/
def write_day_data (s : Sys) (d : DayData) : Sys := { s with dayFile := d }

/-- `current_openings_to_json`: append the episode made of the status file's
`lastOpened`/`lastClosed` to today's record, or start a fresh single-key file
for today if the date key changed. -/
def current_openings_to_json (env : Env) (s : Sys) : Sys × List Event :=
  let new_entry : Entry := ⟨s.statusFile.lastOpened, s.statusFile.lastClosed⟩
  match dictGet s.dayFile env.today with
  | some rec =>
      let d1 := dictSet s.dayFile env.today
        ⟨rec.numOfOpenings + 1, rec.openings ++ [new_entry]⟩
      ({ s with dayFile := d1 }, [Event.localDayWrite d1])
  | none =>
      let d1 : DayData := [(env.today, ⟨1, [new_entry]⟩)]
      ({ s with dayFile := d1 }, [Event.localDayWrite d1])

/-- `status_to_firebase`: best-effort upsert of the current-status document;
an exception is caught and only logged. -/
def status_to_firebase (env : Env) (s : Sys) : Sys × List Event :=
  if env.statusUpsertFails then (s, [Event.remoteStatusFail])
  else ({ s with remoteStatus := some s.statusFile },
        [Event.remoteStatusUpsert s.statusFile])

/-- `send_full_data_to_db`: upsert the day document keyed by the (single)
date key of `day_data.json`; any exception (including `next(iter(...))` on an
empty dict, or the remote call) is caught and only logged. -/
def send_full_data_to_db (env : Env) (s : Sys) : Sys × List Event :=
  match s.dayFile.head? with
  | none => (s, [Event.remoteDayFail])
  | some (date_id, rec) =>
      if env.dayUpsertFails then (s, [Event.remoteDayFail])
      else ({ s with remoteDays := dictSet s.remoteDays date_id rec },
            [Event.remoteDayUpsert date_id rec.numOfOpenings rec.openings])

/-- `update_status`: the Transition Engine's edge handler. Returns `none` only
when an uncaught exception escapes (empty `day_data.json` in the closing
path); otherwise `some` of the new state and the trace of effects. -/
def update_status (env : Env) (status : Nat) (s : Sys) : Option (Sys × List Event) :=
  if s.statusFile.isOpen = status then
    some (s, [])
  else
    let sd : StatusData :=
      if status = 0 then
        { s.statusFile with isOpen := status, lastClosed := env.now }
      else
        { s.statusFile with isOpen := status, lastOpened := env.now }
    let s1 : Sys := { s with statusFile := sd }
    if status = 0 ∧ sd.lastOpened ≠ 0 then
      match s1.dayFile.head? with
      | none => none
      | some (date_id, _) =>
          let p1 : Sys × List Event :=
            if env.today ≠ date_id then send_full_data_to_db env s1 else (s1, [])
          let p2 := current_openings_to_json env p1.1
          let p3 := status_to_firebase env p2.1
          some (p3.1, Event.localStatusWrite sd :: (p1.2 ++ p2.2 ++ p3.2))
    else
      let p3 := status_to_firebase env s1
      some (p3.1, Event.localStatusWrite sd :: p3.2)

/-- `new_day_is_here`: the Daily Rollover Coordinator. The whole body is in a
try/except, so an empty `day_data.json` or a failing remote existence check
leaves the state unchanged. When the remote store already holds a document
keyed by the local date, the function returns early. -/
def new_day_is_here (env : Env) (s : Sys) : Sys × List Event :=
  match s.dayFile.head? with
  | none => (s, [])
  | some (date_id, _) =>
      if env.existsCheckFails then (s, [])
      else if (dictGet s.remoteDays date_id).isSome then (s, [])
      else
        let p1 := send_full_data_to_db env s
        let d1 : DayData := [(env.today, ⟨0, []⟩)]
        ({ p1.1 with dayFile := d1 }, p1.2 ++ [Event.localDayWrite d1])

/-- The invariant of the day file: every record's count equals the length of
its openings list. -/
def DayFileInv (d : DayData) : Prop :=
  ∀ p ∈ d, p.2.numOfOpenings = p.2.openings.length

instance decDayFileInv (d : DayData) : Decidable (DayFileInv d) :=
  inferInstanceAs (Decidable (∀ p ∈ d, p.2.numOfOpenings = p.2.openings.length))

/- ---------- Helper lemmas on the dict operations ---------- -/

theorem dictGet_dictSet_self (d : DayData) (k : Nat) (v : DayRecord) :
    dictGet (dictSet d k v) k = some v := by
  induction d with
  | nil => simp [dictGet, dictSet]
  | cons p rest ih =>
      obtain ⟨pk, pv⟩ := p
      by_cases h : pk = k <;> simp [dictGet, dictSet, h, ih]

theorem dictGet_dictSet_ne (d : DayData) (k key : Nat) (v : DayRecord)
    (h : k ≠ key) : dictGet (dictSet d key v) k = dictGet d k := by
  have h' : key ≠ k := Ne.symm h
  induction d with
  | nil => simp [dictGet, dictSet, h']
  | cons p rest ih =>
      obtain ⟨pk, pv⟩ := p
      by_cases h1 : pk = key
      · subst h1
        simp [dictGet, dictSet, h']
      · simp [dictGet, dictSet, h1, ih]

theorem dictGet_mem (d : DayData) (k : Nat) (v : DayRecord)
    (h : dictGet d k = some v) : (k, v) ∈ d := by
  induction d with
  | nil => simp [dictGet] at h
  | cons p rest ih =>
      obtain ⟨pk, pv⟩ := p
      by_cases h1 : pk = k
      · subst h1
        simp [dictGet] at h
        simp [h]
      · simp [dictGet, h1] at h
        exact List.mem_cons_of_mem _ (ih h)

theorem DayFileInv_dictSet (d : DayData) (k : Nat) (v : DayRecord)
    (hd : DayFileInv d) (hv : v.numOfOpenings = v.openings.length) :
    DayFileInv (dictSet d k v) := by
  induction d with
  | nil =>
      intro p hp
      simp [dictSet] at hp
      simp [hp, hv]
  | cons q rest ih =>
      obtain ⟨qk, qv⟩ := q
      have hqv : qv.numOfOpenings = qv.openings.length := hd (qk, qv) (by simp)
      have hrest : DayFileInv rest := fun p hp => hd p (List.mem_cons_of_mem _ hp)
      by_cases h1 : qk = k
      · intro p hp
        simp [dictSet, h1] at hp
        rcases hp with hp | hp
        · simp [hp, hv]
        · exact hd p (List.mem_cons_of_mem _ hp)
      · intro p hp
        simp only [dictSet, if_neg h1, List.mem_cons] at hp
        rcases hp with hp | hp
        · simp [hp, hqv]
        · exact ih hrest p hp

/- ---------- Frame lemmas on the operations ---------- -/

theorem send_full_data_to_db_local (env : Env) (s : Sys) :
    (send_full_data_to_db env s).1.dayFile = s.dayFile ∧
    (send_full_data_to_db env s).1.statusFile = s.statusFile := by
  unfold send_full_data_to_db
  cases h : s.dayFile.head? with
  | none => simp
  | some p =>
      obtain ⟨k, v⟩ := p
      by_cases hf : env.dayUpsertFails <;> simp [hf]

theorem status_to_firebase_local (env : Env) (s : Sys) :
    (status_to_firebase env s).1.dayFile = s.dayFile ∧
    (status_to_firebase env s).1.statusFile = s.statusFile := by
  unfold status_to_firebase
  by_cases hf : env.statusUpsertFails <;> simp [hf]

/-- `current_openings_to_json` preserves the day-file invariant. -/
theorem current_openings_to_json_inv (env : Env) (s : Sys)
    (h : DayFileInv s.dayFile) :
    DayFileInv (current_openings_to_json env s).1.dayFile := by
  unfold current_openings_to_json
  cases hg : dictGet s.dayFile env.today with
  | none =>
      intro p hp
      simp at hp
      simp [hp]
  | some rec =>
      have hrec : rec.numOfOpenings = rec.openings.length :=
        h (env.today, rec) (dictGet_mem _ _ _ hg)
      simp only
      exact DayFileInv_dictSet _ _ _ h (by simp [hrec])

/- ---------- Claim theorems ---------- -/

/-- C5: calling `update_status` with a status equal to the currently stored
`isOpen` value leaves the whole system state unchanged (no CurrentStatus
mutation, no DayAggregate append, no remote aggregate flush) and performs no
effect at all: the early return produces the identical state and an empty
trace. -/
theorem C5_duplicate_edge_noop (env : Env) (status : Nat) (s : Sys)
    (h : s.statusFile.isOpen = status) :
    update_status env status s = some (s, []) := by
  simp [update_status, h]

/-- Witness for C5 at a concrete state. -/
theorem C5_duplicate_edge_noop_witness :
    update_status ⟨100, 5, false, false, false⟩ 1
      ⟨⟨1, 10, 0⟩, [(5, ⟨0, []⟩)], none, []⟩ =
      some (⟨⟨1, 10, 0⟩, [(5, ⟨0, []⟩)], none, []⟩, []) :=
  C5_duplicate_edge_noop ⟨100, 5, false, false, false⟩ 1
    ⟨⟨1, 10, 0⟩, [(5, ⟨0, []⟩)], none, []⟩ (by decide)

/-- C10: on a duplicate edge (new state equal to the stored `isOpen`), the
early return also skips the remote CurrentStatus push: the remote status
document is unchanged and the trace holds no status upsert. -/
theorem C10_duplicate_edge_no_status_push (env : Env) (status : Nat) (s : Sys)
    (h : s.statusFile.isOpen = status) :
    ∀ s' tr, update_status env status s = some (s', tr) →
      s'.remoteStatus = s.remoteStatus ∧
      tr.filter (fun e => e.isStatusUpsert) = [] := by
  intro s' tr htr
  simp [update_status, h] at htr
  obtain ⟨h1, h2⟩ := htr
  subst h1
  subst h2
  simp

/-- Witness for C10 at a concrete state. -/
theorem C10_duplicate_edge_no_status_push_witness :
    (⟨⟨1, 10, 0⟩, [(5, ⟨0, []⟩)], none, []⟩ : Sys).remoteStatus =
        (⟨⟨1, 10, 0⟩, [(5, ⟨0, []⟩)], none, []⟩ : Sys).remoteStatus ∧
      List.filter (fun e => e.isStatusUpsert) ([] : List Event) = [] :=
  C10_duplicate_edge_no_status_push ⟨100, 5, false, false, false⟩ 1
    ⟨⟨1, 10, 0⟩, [(5, ⟨0, []⟩)], none, []⟩ (by decide)
    ⟨⟨1, 10, 0⟩, [(5, ⟨0, []⟩)], none, []⟩ [] (by decide)

/-- C9: writing a day aggregate to the local store and reading it back
returns exactly the value written. -/
theorem C9_day_store_roundtrip (s : Sys) (d : DayData) :
    get_day_data (write_day_data s d) = d := rfl

/-- C6: a closing edge with `isOpen = 1` and `lastOpened = 0` updates and
persists CurrentStatus (isOpen cleared, lastClosed set to now) but appends no
episode: the day file is untouched and the trace holds no local day write. -/
theorem C6_close_without_open (env : Env) (s : Sys)
    (hopen : s.statusFile.isOpen = 1) (hlo : s.statusFile.lastOpened = 0) :
    ∃ s' tr, update_status env 0 s = some (s', tr) ∧
      s'.statusFile = { s.statusFile with isOpen := 0, lastClosed := env.now } ∧
      s'.dayFile = s.dayFile ∧
      Event.localStatusWrite { s.statusFile with isOpen := 0, lastClosed := env.now } ∈ tr ∧
      tr.filter (fun e => e.isLocalDayWrite) = [] := by
  obtain ⟨⟨io, lo, lc⟩, df, rs, rd⟩ := s
  simp only [] at hopen hlo
  subst hopen
  subst hlo
  by_cases hf : env.statusUpsertFails
  · exact ⟨⟨⟨0, 0, env.now⟩, df, rs, rd⟩,
      [Event.localStatusWrite ⟨0, 0, env.now⟩, Event.remoteStatusFail],
      by simp [update_status, status_to_firebase, hf], rfl, rfl, by simp, rfl⟩
  · exact ⟨⟨⟨0, 0, env.now⟩, df, some ⟨0, 0, env.now⟩, rd⟩,
      [Event.localStatusWrite ⟨0, 0, env.now⟩, Event.remoteStatusUpsert ⟨0, 0, env.now⟩],
      by simp [update_status, status_to_firebase, hf], rfl, rfl, by simp, rfl⟩

/-- Witness for C6 at a concrete state. -/
theorem C6_close_without_open_witness :
    ∃ s' tr,
      update_status ⟨100, 5, false, false, false⟩ 0
          ⟨⟨1, 0, 20⟩, [(5, ⟨0, []⟩)], none, []⟩ = some (s', tr) ∧
      s'.statusFile = ⟨0, 0, 100⟩ ∧
      s'.dayFile = [(5, ⟨0, []⟩)] ∧
      Event.localStatusWrite ⟨0, 0, 100⟩ ∈ tr ∧
      tr.filter (fun e => e.isLocalDayWrite) = [] :=
  C6_close_without_open ⟨100, 5, false, false, false⟩
    ⟨⟨1, 0, 20⟩, [(5, ⟨0, []⟩)], none, []⟩ (by decide) (by decide)

/-- C1 counterexample: in a state whose local day file is dated 4 and whose
remote store already holds a document keyed 4, firing the coordinator on day 5
does NOT reset the local day file to day 5 with zero state — the early return
leaves it dated 4, refuting the claim that the reset still happens. -/
theorem C1_counterexample :
    (dictGet
        (⟨⟨0, 10, 20⟩, [(4, ⟨1, [⟨10, 20⟩]⟩)], none,
          [(4, ⟨1, [⟨10, 20⟩]⟩)]⟩ : Sys).remoteDays 4).isSome = true ∧
    (new_day_is_here ⟨100, 5, false, false, false⟩
        ⟨⟨0, 10, 20⟩, [(4, ⟨1, [⟨10, 20⟩]⟩)], none,
          [(4, ⟨1, [⟨10, 20⟩]⟩)]⟩).1.dayFile ≠
      [(5, ⟨0, []⟩)] := by
  decide

/-- C1 (amended): when the remote store already holds a document keyed by the
local day file's date, the coordinator issues no duplicate aggregate upsert —
but instead of resetting the local aggregate it returns early, leaving the
whole state unchanged and producing no effect at all. -/
theorem C1_rollover_skip_no_reset (env : Env) (s : Sys)
    (date_id : Nat) (rec : DayRecord)
    (hhead : s.dayFile.head? = some (date_id, rec))
    (hexists : (dictGet s.remoteDays date_id).isSome = true)
    (hok : env.existsCheckFails = false) :
    new_day_is_here env s = (s, []) := by
  simp [new_day_is_here, hhead, hexists, hok]

/-- Witness for the amended C1 at a concrete state. -/
theorem C1_rollover_skip_no_reset_witness :
    new_day_is_here ⟨100, 7, false, false, false⟩
        ⟨⟨0, 10, 20⟩, [(6, ⟨2, [⟨10, 20⟩, ⟨30, 40⟩]⟩)], none,
          [(6, ⟨2, [⟨10, 20⟩, ⟨30, 40⟩]⟩)]⟩ =
      (⟨⟨0, 10, 20⟩, [(6, ⟨2, [⟨10, 20⟩, ⟨30, 40⟩]⟩)], none,
          [(6, ⟨2, [⟨10, 20⟩, ⟨30, 40⟩]⟩)]⟩, []) :=
  C1_rollover_skip_no_reset ⟨100, 7, false, false, false⟩
    ⟨⟨0, 10, 20⟩, [(6, ⟨2, [⟨10, 20⟩, ⟨30, 40⟩]⟩)], none,
      [(6, ⟨2, [⟨10, 20⟩, ⟨30, 40⟩]⟩)]⟩
    6 ⟨2, [⟨10, 20⟩, ⟨30, 40⟩]⟩ (by decide) (by decide) (by decide)

/-- C2: a coordinator firing on day `env.today` with a single-key local day
file dated `D` at least two days earlier, no remote document keyed `D`, and
succeeding remote calls, upserts exactly one remote document — keyed `D`, with
that aggregate's count and openings — resets the local day file to
`[(today, zero)]`, and creates no remote document keyed by any date strictly
between `D` and `today`. -/
theorem C2_multi_day_rollover (env : Env) (s : Sys) (D : Nat) (rec : DayRecord)
    (hfile : s.dayFile = [(D, rec)])
    (hremote : dictGet s.remoteDays D = none)
    (hgap : D + 2 ≤ env.today)
    (hok1 : env.existsCheckFails = false)
    (hok2 : env.dayUpsertFails = false) :
    (new_day_is_here env s).1.remoteDays = dictSet s.remoteDays D rec ∧
    (new_day_is_here env s).1.dayFile = [(env.today, ⟨0, []⟩)] ∧
    (new_day_is_here env s).2.filter (fun e => e.isDayUpsert) =
      [Event.remoteDayUpsert D rec.numOfOpenings rec.openings] ∧
    ∀ d : Nat, D < d → d < env.today →
      dictGet (new_day_is_here env s).1.remoteDays d = dictGet s.remoteDays d := by
  have hres : new_day_is_here env s =
      ({ s with remoteDays := dictSet s.remoteDays D rec,
                dayFile := [(env.today, ⟨0, []⟩)] },
       [Event.remoteDayUpsert D rec.numOfOpenings rec.openings,
        Event.localDayWrite [(env.today, ⟨0, []⟩)]]) := by
    simp [new_day_is_here, send_full_data_to_db, hfile, hremote, hok1, hok2]
  refine ⟨by simp [hres], by simp [hres], by simp [hres, Event.isDayUpsert], ?_⟩
  intro d hd1 hd2
  rw [hres]
  exact dictGet_dictSet_ne _ _ _ _ (Nat.ne_of_gt hd1)

/-- Witness for C2 at a concrete state: local file dated 3, firing on day 5. -/
theorem C2_multi_day_rollover_witness :
    (new_day_is_here ⟨100, 5, false, false, false⟩
        ⟨⟨0, 10, 20⟩, [(3, ⟨2, [⟨10, 20⟩, ⟨30, 40⟩]⟩)], none, []⟩).1.remoteDays =
      dictSet [] 3 ⟨2, [⟨10, 20⟩, ⟨30, 40⟩]⟩ ∧
    (new_day_is_here ⟨100, 5, false, false, false⟩
        ⟨⟨0, 10, 20⟩, [(3, ⟨2, [⟨10, 20⟩, ⟨30, 40⟩]⟩)], none, []⟩).1.dayFile =
      [(5, ⟨0, []⟩)] ∧
    (new_day_is_here ⟨100, 5, false, false, false⟩
        ⟨⟨0, 10, 20⟩, [(3, ⟨2, [⟨10, 20⟩, ⟨30, 40⟩]⟩)], none, []⟩).2.filter
        (fun e => e.isDayUpsert) =
      [Event.remoteDayUpsert 3 2 [⟨10, 20⟩, ⟨30, 40⟩]] ∧
    dictGet
        (new_day_is_here ⟨100, 5, false, false, false⟩
          ⟨⟨0, 10, 20⟩, [(3, ⟨2, [⟨10, 20⟩, ⟨30, 40⟩]⟩)], none, []⟩).1.remoteDays 4 =
      dictGet ([] : DayData) 4 := by
  have h := C2_multi_day_rollover ⟨100, 5, false, false, false⟩
    ⟨⟨0, 10, 20⟩, [(3, ⟨2, [⟨10, 20⟩, ⟨30, 40⟩]⟩)], none, []⟩
    3 ⟨2, [⟨10, 20⟩, ⟨30, 40⟩]⟩ rfl rfl (by decide) rfl rfl
  exact ⟨h.1, h.2.1, h.2.2.1, h.2.2.2 4 (by decide) (by decide)⟩

/-- C3: a closing edge arriving while the single-key day file is dated `D`
different from today, with `isOpen = 1` and a non-zero `lastOpened`, upserts
the stale aggregate to the remote store under its own key `D` before the local
write of the new day's file, and leaves the day file keyed by today with
exactly the one new episode `{opened := lastOpened, closed := now}`. -/
theorem C3_cross_day_close (env : Env) (s : Sys) (D : Nat) (rec : DayRecord)
    (hopen : s.statusFile.isOpen = 1)
    (hlo : s.statusFile.lastOpened ≠ 0)
    (hfile : s.dayFile = [(D, rec)])
    (hdiff : D ≠ env.today)
    (hok : env.dayUpsertFails = false) :
    ∃ s' tr, update_status env 0 s = some (s', tr) ∧
      dictGet s'.remoteDays D = some rec ∧
      s'.dayFile = [(env.today, ⟨1, [⟨s.statusFile.lastOpened, env.now⟩]⟩)] ∧
      ∃ l1 l3, tr = l1 ++
        [Event.remoteDayUpsert D rec.numOfOpenings rec.openings,
         Event.localDayWrite [(env.today, ⟨1, [⟨s.statusFile.lastOpened, env.now⟩]⟩)]] ++ l3 := by
  obtain ⟨⟨io, lo, lc⟩, df, rs, rd⟩ := s
  obtain ⟨nw, td, fa, fb, fc⟩ := env
  simp only [] at hopen hlo hfile hdiff hok
  subst hopen
  subst hfile
  subst hok
  have hdiff' : td ≠ D := Ne.symm hdiff
  cases fa
  · exact ⟨⟨⟨0, lo, nw⟩, [(td, ⟨1, [⟨lo, nw⟩]⟩)], some ⟨0, lo, nw⟩, dictSet rd D rec⟩,
      [Event.localStatusWrite ⟨0, lo, nw⟩,
       Event.remoteDayUpsert D rec.numOfOpenings rec.openings,
       Event.localDayWrite [(td, ⟨1, [⟨lo, nw⟩]⟩)],
       Event.remoteStatusUpsert ⟨0, lo, nw⟩],
      by simp [update_status, status_to_firebase, current_openings_to_json,
        send_full_data_to_db, dictGet, hlo, hdiff, hdiff'],
      dictGet_dictSet_self rd D rec, rfl,
      [Event.localStatusWrite ⟨0, lo, nw⟩], [Event.remoteStatusUpsert ⟨0, lo, nw⟩], rfl⟩
  · exact ⟨⟨⟨0, lo, nw⟩, [(td, ⟨1, [⟨lo, nw⟩]⟩)], rs, dictSet rd D rec⟩,
      [Event.localStatusWrite ⟨0, lo, nw⟩,
       Event.remoteDayUpsert D rec.numOfOpenings rec.openings,
       Event.localDayWrite [(td, ⟨1, [⟨lo, nw⟩]⟩)],
       Event.remoteStatusFail],
      by simp [update_status, status_to_firebase, current_openings_to_json,
        send_full_data_to_db, dictGet, hlo, hdiff, hdiff'],
      dictGet_dictSet_self rd D rec, rfl,
      [Event.localStatusWrite ⟨0, lo, nw⟩], [Event.remoteStatusFail], rfl⟩

/-- Witness for C3 at a concrete state: closing on day 5 over a file dated 4. -/
theorem C3_cross_day_close_witness :
    ∃ s' tr,
      update_status ⟨100, 5, false, false, false⟩ 0
          ⟨⟨1, 50, 20⟩, [(4, ⟨1, [⟨10, 20⟩]⟩)], none, []⟩ = some (s', tr) ∧
      dictGet s'.remoteDays 4 = some ⟨1, [⟨10, 20⟩]⟩ ∧
      s'.dayFile = [(5, ⟨1, [⟨50, 100⟩]⟩)] ∧
      ∃ l1 l3, tr = l1 ++
        [Event.remoteDayUpsert 4 1 [⟨10, 20⟩],
         Event.localDayWrite [(5, ⟨1, [⟨50, 100⟩]⟩)]] ++ l3 :=
  C3_cross_day_close ⟨100, 5, false, false, false⟩
    ⟨⟨1, 50, 20⟩, [(4, ⟨1, [⟨10, 20⟩]⟩)], none, []⟩ 4 ⟨1, [⟨10, 20⟩]⟩
    (by decide) (by decide) (by decide) (by decide) (by decide)

/-- C4: an opening edge at `env1.now` (from a closed state) followed by a
closing edge at `env2.now`, both on the day `D` of the single-key day file,
appends exactly one episode `{opened := env1.now, closed := env2.now}` to the
day file's openings and increments `numOfOpenings` by exactly 1. -/
theorem C4_open_close_pairing (env1 env2 : Env) (s : Sys) (D : Nat) (rec : DayRecord)
    (hclosed : s.statusFile.isOpen = 0)
    (hfile : s.dayFile = [(D, rec)])
    (hday1 : env1.today = D) (hday2 : env2.today = D)
    (ht1 : 0 < env1.now) (ht12 : env1.now < env2.now) :
    ((update_status env1 1 s).bind fun r => update_status env2 0 r.1).map
        (fun r => r.1.dayFile) =
      some [(D, ⟨rec.numOfOpenings + 1, rec.openings ++ [⟨env1.now, env2.now⟩]⟩)] := by
  obtain ⟨⟨io, lo, lc⟩, df, rs, rd⟩ := s
  obtain ⟨n1, t1, a1, b1, c1⟩ := env1
  obtain ⟨n2, t2, a2, b2, c2⟩ := env2
  simp only [] at hclosed hfile hday1 hday2 ht1
  subst hclosed
  subst hfile
  subst hday1
  subst hday2
  have hn1 : n1 ≠ 0 := Nat.pos_iff_ne_zero.mp ht1
  cases a1 <;> cases a2 <;>
    simp [update_status, status_to_firebase, current_openings_to_json,
      send_full_data_to_db, dictGet, dictSet, hn1]

/-- Witness for C4 at a concrete state: open at 100, close at 200 on day 5. -/
theorem C4_open_close_pairing_witness :
    ((update_status ⟨100, 5, false, false, false⟩ 1
          ⟨⟨0, 0, 0⟩, [(5, ⟨0, []⟩)], none, []⟩).bind fun r =>
        update_status ⟨200, 5, false, false, false⟩ 0 r.1).map
        (fun r => r.1.dayFile) =
      some [(5, ⟨1, [⟨100, 200⟩]⟩)] :=
  C4_open_close_pairing ⟨100, 5, false, false, false⟩ ⟨200, 5, false, false, false⟩
    ⟨⟨0, 0, 0⟩, [(5, ⟨0, []⟩)], none, []⟩ 5 ⟨0, []⟩
    (by decide) (by decide) (by decide) (by decide) (by decide) (by decide)

/-- C7: the invariant `numOfOpenings = length openings` of the local day file
holds for the initial file and is preserved by every operation that writes the
day file: the episode append / new-day overwrite (`current_openings_to_json`),
the whole edge handler (`update_status`), and the coordinator's rollover reset
(`new_day_is_here`). -/
theorem C7_day_invariant :
    (∀ t, DayFileInv (initDayFile t)) ∧
    (∀ env s, DayFileInv s.dayFile →
      DayFileInv (current_openings_to_json env s).1.dayFile) ∧
    (∀ env s, DayFileInv s.dayFile →
      DayFileInv (new_day_is_here env s).1.dayFile) ∧
    (∀ env status s s' tr, DayFileInv s.dayFile →
      update_status env status s = some (s', tr) → DayFileInv s'.dayFile) := by
  refine ⟨?_, current_openings_to_json_inv, ?_, ?_⟩
  · intro t p hp
    simp [initDayFile] at hp
    simp [hp]
  · intro env s h
    unfold new_day_is_here
    cases hh : s.dayFile.head? with
    | none => exact h
    | some p =>
        obtain ⟨k, v⟩ := p
        by_cases h1 : env.existsCheckFails
        · simpa [h1] using h
        · by_cases h2 : (dictGet s.remoteDays k).isSome
          · simpa [h1, h2] using h
          · simp only [h1, h2, if_false, Bool.false_eq_true]
            intro p hp
            simp at hp
            simp [hp]
  · intro env status s s' tr h heq
    obtain ⟨nw, td, fa, fb, fc⟩ := env
    obtain ⟨⟨io, lo, lc⟩, df, rs, rd⟩ := s
    simp only [] at h
    by_cases h0 : io = status
    · simp [update_status, h0] at heq
      obtain ⟨h1, h2⟩ := heq
      subst h1
      exact h
    · by_cases hz : status = 0
      · subst hz
        by_cases hlo : lo = 0
        · subst hlo
          cases fa <;>
            (simp [update_status, status_to_firebase, h0] at heq;
             obtain ⟨h1, h2⟩ := heq; subst h1; exact h)
        · cases df with
          | nil => simp [update_status, h0, hlo] at heq
          | cons p rest =>
              obtain ⟨k, w⟩ := p
              by_cases hkt : td = k
              · subst hkt
                cases fa <;>
                  (simp [update_status, status_to_firebase, current_openings_to_json,
                     dictGet, h0, hlo] at heq;
                   obtain ⟨h1, h2⟩ := heq; subst h1;
                   refine DayFileInv_dictSet _ _ _ h ?_;
                   exact by
                     have hw : w.numOfOpenings = w.openings.length := h (td, w) (by simp)
                     simp [hw])
              · cases hdg : dictGet rest td with
                | some u =>
                    cases fa <;> cases fb <;>
                      (simp [update_status, status_to_firebase, send_full_data_to_db,
                         current_openings_to_json, dictGet, h0, hlo, hkt,
                         Ne.symm hkt, hdg] at heq;
                       obtain ⟨h1, h2⟩ := heq; subst h1;
                       refine DayFileInv_dictSet _ _ _ h ?_;
                       exact by
                         have hm : (td, u) ∈ (k, w) :: rest :=
                           dictGet_mem _ _ _ (by simp [dictGet, Ne.symm hkt, hdg])
                         have hu : u.numOfOpenings = u.openings.length := h (td, u) hm
                         simp [hu])
                | none =>
                    cases fa <;> cases fb <;>
                      (simp [update_status, status_to_firebase, send_full_data_to_db,
                         current_openings_to_json, dictGet, h0, hlo, hkt,
                         Ne.symm hkt, hdg] at heq;
                       obtain ⟨h1, h2⟩ := heq; subst h1;
                       intro p hp; simp at hp; simp [hp])
      · cases fa <;>
          (simp [update_status, status_to_firebase, h0, hz] at heq;
           obtain ⟨h1, h2⟩ := heq; subst h1; exact h)

/-- Witness for C7: the invariant-preservation conjuncts applied at concrete
states where the hypotheses are discharged by evaluation. -/
theorem C7_day_invariant_witness :
    DayFileInv (initDayFile 5) ∧
    DayFileInv (current_openings_to_json ⟨100, 5, false, false, false⟩
      ⟨⟨0, 10, 20⟩, [(5, ⟨1, [⟨1, 2⟩]⟩)], none, []⟩).1.dayFile ∧
    DayFileInv (new_day_is_here ⟨100, 5, false, false, false⟩
      ⟨⟨0, 10, 20⟩, [(4, ⟨1, [⟨1, 2⟩]⟩)], none, []⟩).1.dayFile ∧
    DayFileInv (⟨⟨0, 10, 100⟩, [(5, ⟨2, [⟨1, 2⟩, ⟨10, 100⟩]⟩)],
      some ⟨0, 10, 100⟩, []⟩ : Sys).dayFile :=
  ⟨C7_day_invariant.1 5,
   C7_day_invariant.2.1 ⟨100, 5, false, false, false⟩
     ⟨⟨0, 10, 20⟩, [(5, ⟨1, [⟨1, 2⟩]⟩)], none, []⟩ (by decide),
   C7_day_invariant.2.2.1 ⟨100, 5, false, false, false⟩
     ⟨⟨0, 10, 20⟩, [(4, ⟨1, [⟨1, 2⟩]⟩)], none, []⟩ (by decide),
   C7_day_invariant.2.2.2 ⟨100, 5, false, false, false⟩ 0
     ⟨⟨1, 10, 20⟩, [(5, ⟨1, [⟨1, 2⟩]⟩)], none, []⟩
     ⟨⟨0, 10, 100⟩, [(5, ⟨2, [⟨1, 2⟩, ⟨10, 100⟩]⟩)], some ⟨0, 10, 100⟩, []⟩
     [Event.localStatusWrite ⟨0, 10, 100⟩,
      Event.localDayWrite [(5, ⟨2, [⟨1, 2⟩, ⟨10, 100⟩]⟩)],
      Event.remoteStatusUpsert ⟨0, 10, 100⟩]
     (by decide) (by decide)⟩

/-- C8: with a non-empty local day file, `update_status` always completes
without raising, whatever remote calls fail, and the local files (status and
day) it leaves behind are exactly those of the all-remote-calls-succeed run:
remote failures are swallowed and roll back no local mutation. -/
theorem C8_remote_failure_swallowed (env : Env) (status : Nat) (s : Sys)
    (hne : s.dayFile ≠ []) :
    (update_status env status s).isSome = true ∧
    (update_status env status s).map (fun r => (r.1.statusFile, r.1.dayFile)) =
      (update_status ⟨env.now, env.today, false, false, false⟩ status s).map
        (fun r => (r.1.statusFile, r.1.dayFile)) := by
  obtain ⟨nw, td, fa, fb, fc⟩ := env
  obtain ⟨⟨io, lo, lc⟩, df, rs, rd⟩ := s
  simp only [] at hne
  by_cases h0 : io = status
  · simp [update_status, h0]
  · cases df with
    | nil => exact absurd rfl hne
    | cons p rest =>
        obtain ⟨k, v⟩ := p
        by_cases hz : status = 0
        · subst hz
          by_cases hlo : lo = 0
          · subst hlo
            cases fa <;> cases fb <;>
              simp [update_status, status_to_firebase, send_full_data_to_db,
                current_openings_to_json, h0]
          · by_cases hkt : td = k
            · subst hkt
              cases fa <;> cases fb <;>
                simp [update_status, status_to_firebase, send_full_data_to_db,
                  current_openings_to_json, dictGet, h0, hlo]
            · cases hdg : dictGet rest td <;> cases fa <;> cases fb <;>
                simp [update_status, status_to_firebase, send_full_data_to_db,
                  current_openings_to_json, dictGet, h0, hlo, hkt,
                  Ne.symm hkt, hdg]
        · cases fa <;> cases fb <;>
            simp [update_status, status_to_firebase, send_full_data_to_db,
              current_openings_to_json, h0, hz]

/-- Witness for C8 at a concrete state with both remote calls failing. -/
theorem C8_remote_failure_swallowed_witness :
    (update_status ⟨100, 5, true, true, false⟩ 0
        ⟨⟨1, 50, 20⟩, [(4, ⟨0, []⟩)], none, []⟩).isSome = true ∧
    (update_status ⟨100, 5, true, true, false⟩ 0
        ⟨⟨1, 50, 20⟩, [(4, ⟨0, []⟩)], none, []⟩).map
        (fun r => (r.1.statusFile, r.1.dayFile)) =
      (update_status ⟨100, 5, false, false, false⟩ 0
          ⟨⟨1, 50, 20⟩, [(4, ⟨0, []⟩)], none, []⟩).map
        (fun r => (r.1.statusFile, r.1.dayFile)) :=
  C8_remote_failure_swallowed ⟨100, 5, true, true, false⟩ 0
    ⟨⟨1, 50, 20⟩, [(4, ⟨0, []⟩)], none, []⟩ (by decide)

end DoorMonitor
